import Mathlib

/-!
Verification of the voice-interaction coordinator of the AgentExtension browser
extension.  The development shallowly embeds the two sibling implementations:

* the module stack, `src/extension/src/modules/speechRecognition.ts`
  (class `SpeechRecognizer`) together with the VAD flag of
  `src/extension/src/modules/audio.ts` (class `AudioManager`) — this is the
  stack wired up by the webpack entry `initializeAudio.ts`;
* the legacy monolithic content script `src/extension/src/contentScripts/audio.ts`
  (prefixed `cs` below).

Transcripts are embedded as `List Char`; JavaScript `String.prototype.includes`
is embedded as the executable substring check `containsSub`, and
`String.prototype.toLowerCase` as a character-wise `Char.toLower` map.
Machine reals only occur in the VAD energy computation; the byte-domain
(`Uint8Array`) quantities of the module implementation are exact integers, so
they are embedded in `ℚ` without loss (all intermediate values are exactly
representable binary64 floats and the threshold comparison margin dwarfs the
rounding error of the one float division involved).
-/

/-! ### Transcript text and the wake/sleep classifier -/

/-- `transcript.toLowerCase()` — character-wise lowering of a transcript. -/
def lowerL (t : List Char) : List Char := t.map Char.toLower

/-- `hasPrefixL l pat` tests whether the needle `pat` occurs at the head of `l`. -/
def hasPrefixL : List Char → List Char → Bool
  | _, [] => true
  | [], _ :: _ => false
  | a :: as, b :: bs => a == b && hasPrefixL as bs

/-- `containsSub l pat` — JavaScript `l.includes(pat)`: `pat` occurs contiguously in `l`. -/
def containsSub : List Char → List Char → Bool
  | [], pat => pat.isEmpty
  | a :: as, pat => hasPrefixL (a :: as) pat || containsSub as pat

/-- `SpeechRecognizer.detectWakeWord`'s wake-word list (speechRecognition.ts:319). -/
def wakeWords : List (List Char) := ["hey copilot".data, "ok copilot".data, "copilot".data]

/-- `SpeechRecognizer.detectWakeWord` (speechRecognition.ts:318–321):
`wakeWords.some(w => transcript.toLowerCase().includes(w))`. -/
def detectWakeWord (t : List Char) : Bool :=
  wakeWords.any fun w => containsSub (lowerL t) w

/-- `SpeechRecognizer.detectSleepCommand`'s command list (speechRecognition.ts:329). -/
def sleepCommands : List (List Char) :=
  ["copilot stop".data, "stop copilot".data, "copilot exit".data, "copilot sleep".data]

/-- `SpeechRecognizer.detectSleepCommand` (speechRecognition.ts:328–331). -/
def detectSleepCommand (t : List Char) : Bool :=
  sleepCommands.any fun w => containsSub (lowerL t) w

/-- The inline wake check of the legacy content script
(contentScripts/audio.ts:272–273 and 297–298):
`t.toLowerCase().includes('hey copilot') || t.toLowerCase().includes('copilot')`. -/
def csWakeCheck (t : List Char) : Bool :=
  containsSub (lowerL t) "hey copilot".data || containsSub (lowerL t) "copilot".data

/-- The inline sleep check of the legacy content script
(contentScripts/audio.ts:317–318):
`t.toLowerCase().includes('stop copilot') || t.toLowerCase().includes('copilot stop')`. -/
def csSleepCheck (t : List Char) : Bool :=
  containsSub (lowerL t) "stop copilot".data || containsSub (lowerL t) "copilot stop".data

/-! ### Module stack: `SpeechRecognizer` composed with the `AudioManager` VAD flag

The state collects the mutable flags of the two module classes; the recognition
engine instance is assumed initialized (`initialize()` succeeded), which is the
configuration every cited claim is about.  `engineRunning` models whether the
underlying platform engine currently has an active session, i.e. whether its
lifecycle callbacks (`onstart`/`onresult`/`onsound*`/`onend`/`onerror`) can fire. -/

/-- Events dispatched by `SpeechRecognizer` (`SpeechRecognizerEvents`). -/
inductive Signal where
  | started
  | ended
  | result (transcript : List Char) (isFinal : Bool)
  | awake
  | sleep
  | errorSignal (code : List Char)
deriving DecidableEq

/-- Externally visible side effects of a handler run. -/
inductive Effect where
  | emit (sig : Signal)
  | pauseAllPlayback
  | requestEngineStart
  | requestEngineStop
deriving DecidableEq

structure RecState where
  /-- `SpeechRecognizer.isListening` -/
  isListening : Bool
  /-- `SpeechRecognizer.isCommandDetected` (the commandDetected latch) -/
  isCommandDetected : Bool
  /-- `recognition.continuous` -/
  continuous : Bool
  /-- `AudioManager.isVoiceDetectionActive` -/
  vadActive : Bool
  /-- an engine session is active -/
  engineRunning : Bool
deriving DecidableEq

/-- `SpeechRecognizer.startListening` (speechRecognition.ts:386–403): no-op when
already listening, otherwise `recognition.start()` and `isListening = true`. -/
def startListening (s : RecState) : RecState × List Effect :=
  if s.isListening then (s, [])
  else ({ s with isListening := true, engineRunning := true }, [Effect.requestEngineStart])

/-- Promise-resolution behavior of a `stopListening` implementation. -/
inductive StopOutcome where
  | rejectedUninitialized
  /-- `resolve()` runs synchronously inside the `stopListening` call itself. -/
  | resolvedImmediately
  /-- `resolve()` runs inside a handler of the engine's `end` event. -/
  | resolvedOnEngineEnd
deriving DecidableEq

/-- `SpeechRecognizer.stopListening` (speechRecognition.ts:410–433): rejects when
the engine is uninitialized, resolves at once when not listening, and — in the
listening case — calls `recognition.stop()` and then calls `resolve()` on the
very next line, without waiting for the engine's `end` event. -/
def stopListeningOutcome (initialized listening : Bool) : StopOutcome :=
  if !initialized then StopOutcome.rejectedUninitialized
  else if !listening then StopOutcome.resolvedImmediately
  else StopOutcome.resolvedImmediately

/-- `stopListening` of the legacy content script (contentScripts/audio.ts:479–499):
in the listening case it registers an `end` listener and resolves only inside it. -/
def csStopListeningOutcome (initialized listening : Bool) : StopOutcome :=
  if !initialized then StopOutcome.resolvedImmediately
  else if !listening then StopOutcome.resolvedImmediately
  else StopOutcome.resolvedOnEngineEnd

/-- State effect of `SpeechRecognizer.stopListening`: when listening it requests
`recognition.stop()`; it does NOT clear `isListening` (only the later `onend`
handler does), and its promise resolves immediately (`stopListeningOutcome`). -/
def stopListeningEffect (s : RecState) : RecState × List Effect :=
  if s.isListening then (s, [Effect.requestEngineStop]) else (s, [])

/-- `SpeechRecognizer.disableContinuousMode` (speechRecognition.ts:370–379):
`if (continuous) { continuous = false; if (isListening) { await stopListening(); startListening(); } }`.
Because the module `stopListening` resolves synchronously, the subsequent
`startListening()` call runs before any engine `end` event, so the whole body is
one atomic step here. -/
def disableContinuousMode (s : RecState) : RecState × List Effect :=
  if s.continuous then
    let s1 := { s with continuous := false }
    if s1.isListening then
      let p1 := stopListeningEffect s1
      let p2 := startListening p1.1
      (p2.1, p1.2 ++ p2.2)
    else (s1, [])
  else (s, [])

/-- `SpeechRecognizer.handleWakeup` (speechRecognition.ts:339–349): set the latch,
pause all playback, set `recognition.continuous = true` (the source guards the
assignment with `!continuous`, so the net effect is `continuous := true`), and
dispatch `speech:awake`. -/
def handleWakeup (s : RecState) : RecState × List Effect :=
  ({ s with isCommandDetected := true, continuous := true },
   [Effect.pauseAllPlayback, Effect.emit Signal.awake])

/-- `SpeechRecognizer.handleSleep` (speechRecognition.ts:355–362):
`await disableContinuousMode()` then dispatch `speech:sleep`. -/
def handleSleep (s : RecState) : RecState × List Effect :=
  let p := disableContinuousMode s
  (p.1, p.2 ++ [Effect.emit Signal.sleep])

/-- Final-transcript part of the module `onresult` handler
(speechRecognition.ts:266–283): dispatch the final result, run `handleWakeup`
and return when a wake word is detected with the latch clear, otherwise run
`handleSleep` on a sleep command and finally clear the latch. -/
def processFinal (s : RecState) (acts : List Effect) (finalT : List Char) :
    RecState × List Effect :=
  if finalT.isEmpty then (s, acts)
  else
    let acts1 := acts ++ [Effect.emit (Signal.result finalT true)]
    if detectWakeWord finalT && !s.isCommandDetected then
      let p := handleWakeup s
      (p.1, acts1 ++ p.2)
    else
      let p := if detectSleepCommand finalT then handleSleep s else (s, [])
      ({ p.1 with isCommandDetected := false }, acts1 ++ p.2)

/-- The module `onresult` handler (speechRecognition.ts:239–284), applied to the
interim and final transcripts already concatenated per the source's loop.  In
the interim branch a wake word with the latch clear runs `handleWakeup` and
returns, skipping the final branch entirely. -/
def onresultStep (s : RecState) (interimT finalT : List Char) : RecState × List Effect :=
  if interimT.isEmpty then processFinal s [] finalT
  else
    let acts0 := [Effect.emit (Signal.result interimT false)]
    if detectWakeWord interimT && !s.isCommandDetected then
      let p := handleWakeup s
      (p.1, acts0 ++ p.2)
    else processFinal s acts0 finalT

/-- The module `onstart` handler (speechRecognition.ts:162–171): dispatch
`speech:started`; stop VAD only when `recognition.continuous` is set. -/
def onstartStep (s : RecState) : RecState × List Effect :=
  if s.continuous then ({ s with vadActive := false }, [Effect.emit Signal.started])
  else (s, [Effect.emit Signal.started])

/-- The module `onend` handler (speechRecognition.ts:173–189): clear
`isListening` and the latch, dispatch `speech:ended`, then restart listening
when continuous, otherwise restart VAD. -/
def onendStep (s : RecState) : RecState × List Effect :=
  let s1 : RecState :=
    { s with isListening := false, isCommandDetected := false, engineRunning := false }
  if s.continuous then
    let p := startListening s1
    (p.1, [Effect.emit Signal.ended] ++ p.2)
  else
    ({ s1 with vadActive := true }, [Effect.emit Signal.ended])

/-- One restart attempt (or none) produced by an `onerror` run. -/
inductive RetryAction where
  | noRestart
  | immediate
  | delayed (ms : Nat)
deriving DecidableEq

/-- The module `onerror` handler (speechRecognition.ts:191–236).  It first
clears `isListening` and the latch.  The whole error switch is guarded by
`if (this.recognition?.continuous)`: only in continuous mode are retries
attempted (`no-speech` restarts at once — its `!isListening` guard holds since
`isListening` was just cleared; `network` schedules one retry after 3000 ms;
`not-allowed`/`audio-capture` force continuous off, restart VAD and dispatch
`speech:error`; any other code schedules one retry after 1000 ms).  In
non-continuous mode it only restarts VAD. -/
def onerrorStep (s : RecState) (code : List Char) : (RecState × List Effect) × RetryAction :=
  let s0 : RecState :=
    { s with isListening := false, isCommandDetected := false, engineRunning := false }
  if s.continuous then
    if code = "no-speech".data then
      let p := startListening s0
      ((p.1, p.2), RetryAction.immediate)
    else if code = "aborted".data then ((s0, []), RetryAction.noRestart)
    else if code = "not-allowed".data ∨ code = "audio-capture".data then
      (({ s0 with continuous := false, vadActive := true },
        [Effect.emit (Signal.errorSignal code)]), RetryAction.noRestart)
    else if code = "network".data then ((s0, []), RetryAction.delayed 3000)
    else ((s0, []), RetryAction.delayed 1000)
  else
    (({ s0 with vadActive := true }, []), RetryAction.noRestart)

/-- The module `onsoundstart` handler (speechRecognition.ts:286–289): stop VAD. -/
def onsoundstartStep (s : RecState) : RecState := { s with vadActive := false }

/-- The module `onsoundend` handler (speechRecognition.ts:291–294): restart VAD. -/
def onsoundendStep (s : RecState) : RecState := { s with vadActive := true }

/-- The `audio:voiceDetected` listener installed by `setupListeners`
(speechRecognition.ts:107–113): start listening when not already listening. -/
def onvoiceDetectedStep (s : RecState) : RecState × List Effect :=
  if s.isListening then (s, []) else startListening s

/-- Events of the module system.  Engine callbacks can only fire while an engine
session is active; `voiceDetected` can only fire while the VAD loop is active
(`AudioManager.startVoiceActivityDetection`'s `detectLoop` checks
`isVoiceDetectionActive` before dispatching). -/
inductive Ev where
  | voiceDetected
  | engineStarted
  | engineEnded
  | soundStarted
  | soundEnded
  | errorEvent (code : List Char)
  | resultEvent (interimT finalT : List Char)

/-- One transition of the module system: run the corresponding handler when its
firing condition holds, otherwise leave the state unchanged. -/
def stepModule (s : RecState) (e : Ev) : RecState :=
  match e with
  | Ev.voiceDetected => if s.vadActive then (onvoiceDetectedStep s).1 else s
  | Ev.engineStarted => if s.engineRunning then (onstartStep s).1 else s
  | Ev.engineEnded => if s.engineRunning then (onendStep s).1 else s
  | Ev.soundStarted => if s.engineRunning then onsoundstartStep s else s
  | Ev.soundEnded => if s.engineRunning then onsoundendStep s else s
  | Ev.errorEvent code => if s.engineRunning then (onerrorStep s code).1.1 else s
  | Ev.resultEvent i f => if s.engineRunning then (onresultStep s i f).1 else s

/-- State after initialization (initializeAudio.ts: `audio:initialized` runs
`speechRecognizer.initialize()` then `audioManager.startVoiceActivityDetection()`):
nothing listening, latch clear, engine configured non-continuous, VAD active. -/
def initState : RecState := ⟨false, false, false, true, false⟩

/-- Run a sequence of events from a state. -/
def runModule (s : RecState) (evs : List Ev) : RecState := evs.foldl stepModule s

/-- Number of `speech:awake` dispatches in a list of handler actions. -/
def countAwake (acts : List Effect) : Nat := acts.count (Effect.emit Signal.awake)

/-! ### Legacy content script (`contentScripts/audio.ts`) -/

structure CSState where
  isListening : Bool
  copilotCommandDetected : Bool
  continuous : Bool
  isVoiceDetectionActive : Bool
deriving DecidableEq

inductive CSMsg where
  | userCommandStarted
  | copilotStop
  | userCommandResult (transcript : List Char)
deriving DecidableEq

inductive CSAction where
  | send (m : CSMsg)
  | pauseAllPlayback
  /-- the `await disableContinuousMode()` call of the sleep branch (its engine
  stop/restart spans an engine `end` event and is kept opaque here; no claim
  depends on its internals) -/
  | disableContinuous
deriving DecidableEq

/-- Final-transcript part of the content-script `onresult` handler
(contentScripts/audio.ts:293–335).  NOTE two divergences from the module
handler, both verbatim from the source: the wake branch guards the
continuous-mode assignment with `if (recognition?.continuous)` — not
`!continuous` — so `continuous` is only reassigned when it is already `true`,
and the branch never sets `copilotCommandDetected`. -/
def csProcessFinal (s : CSState) (finalT : List Char) : CSState × List CSAction :=
  if finalT.isEmpty then (s, [])
  else if csWakeCheck finalT && !s.copilotCommandDetected then
    ({ s with continuous := if s.continuous then true else s.continuous },
     [CSAction.pauseAllPlayback, CSAction.send CSMsg.userCommandStarted])
  else
    let p : CSState × List CSAction :=
      if csSleepCheck finalT then
        ({ s with continuous := false },
         [CSAction.disableContinuous, CSAction.send CSMsg.copilotStop])
      else (s, [])
    (p.1, p.2 ++ [CSAction.send (CSMsg.userCommandResult finalT)])

/-- The content-script `onresult` handler (contentScripts/audio.ts:252–336).
The interim wake branch sets the latch, pauses playback, guards the
continuous-mode assignment with `if (recognition?.continuous)` (same inverted
guard as the final branch), sends `USER_COMMAND_STARTED` and returns. -/
def csOnresultStep (s : CSState) (interimT finalT : List Char) : CSState × List CSAction :=
  if interimT.isEmpty then csProcessFinal s finalT
  else if csWakeCheck interimT && !s.copilotCommandDetected then
    ({ s with copilotCommandDetected := true,
              continuous := if s.continuous then true else s.continuous },
     [CSAction.pauseAllPlayback, CSAction.send CSMsg.userCommandStarted])
  else csProcessFinal s finalT

/-! ### Voice activity detection arithmetic -/

/-- The analyzer handle as read by `AudioManager.detectVoiceActivity`:
`frequencyBinCount` and the byte-frequency data filled by
`getByteFrequencyData` (entries of a `Uint8Array`). -/
structure AnalyserState where
  frequencyBinCount : Nat
  byteFrequencyData : Nat → Nat

/-- The audio-context handle: only `sampleRate` is read. -/
structure AudioContextState where
  sampleRate : Nat

/-- The nullable fields of `AudioManager` read by `detectVoiceActivity`. -/
structure AudioManagerState where
  audioAnalyzer : Option AnalyserState
  audioContext : Option AudioContextState

/-- `nyquist = this.audioContext.sampleRate / 2` (audio.ts:106). -/
def nyquistFreq (sampleRate : Nat) : ℚ := (sampleRate : ℚ) / 2

/-- `Math.floor(200 * bufferLength / nyquist)` (audio.ts:107). -/
def moduleVoiceRangeStart (bufferLength sampleRate : Nat) : Nat :=
  ⌊(200 * (bufferLength : ℚ)) / nyquistFreq sampleRate⌋₊

/-- `Math.floor(7000 * bufferLength / nyquist)` (audio.ts:108). -/
def moduleVoiceRangeEnd (bufferLength sampleRate : Nat) : Nat :=
  ⌊(7000 * (bufferLength : ℚ)) / nyquistFreq sampleRate⌋₊

/-- The loop `for (i = voiceRangeStart; i < voiceRangeEnd; i++) totalVolume += dataArray[i]`
(audio.ts:111–114). -/
def moduleTotalVolume (a : AnalyserState) (c : AudioContextState) : ℚ :=
  ∑ i ∈ Finset.Ico (moduleVoiceRangeStart a.frequencyBinCount c.sampleRate)
      (moduleVoiceRangeEnd a.frequencyBinCount c.sampleRate),
    (a.byteFrequencyData i : ℚ)

/-- `averageVolume = totalVolume / (voiceRangeEnd - voiceRangeStart)` (audio.ts:116).
When the range is empty the JavaScript quotient is `0/0 = NaN`, and `NaN > 60`
is false; the embedding's `0 / 0 = 0` makes the final comparison agree. -/
def moduleAverageVolume (a : AnalyserState) (c : AudioContextState) : ℚ :=
  moduleTotalVolume a c /
    ((moduleVoiceRangeEnd a.frequencyBinCount c.sampleRate
      - moduleVoiceRangeStart a.frequencyBinCount c.sampleRate : Nat) : ℚ)

/-- `AudioManager.detectVoiceActivity` (audio.ts:95–120): `false` when the
analyzer or the context is `null`, otherwise `averageVolume > threshold` with
`threshold = 60`. -/
def detectVoiceActivity (st : AudioManagerState) : Bool :=
  match st.audioAnalyzer, st.audioContext with
  | some a, some c => decide ((60 : ℚ) < moduleAverageVolume a c)
  | _, _ => false

/-- The analyzer handle as read by the content-script `detectVoiceActivity`:
`powerData i` embeds `Math.pow(10, dataArray[i] / 10)`, the per-bin power
derived from the `getFloatFrequencyData` decibel value (the real exponential
is not representable exactly; the embedding takes the power values themselves
as input, which is faithful for every claim about the band summation and the
threshold comparison). -/
structure CSAnalyserState where
  frequencyBinCount : Nat
  powerData : Nat → ℚ

/-- `Math.floor(200 * bufferLength / audioContext.sampleRate / 2)`
(contentScripts/audio.ts:370) — note: NOT divided by the nyquist frequency. -/
def csVoiceRangeStart (bufferLength sampleRate : Nat) : Nat :=
  ⌊(200 * (bufferLength : ℚ)) / (sampleRate : ℚ) / 2⌋₊

/-- `Math.floor(7000 * bufferLength / audioContext.sampleRate / 2)`
(contentScripts/audio.ts:371). -/
def csVoiceRangeEnd (bufferLength sampleRate : Nat) : Nat :=
  ⌊(7000 * (bufferLength : ℚ)) / (sampleRate : ℚ) / 2⌋₊

/-- `totalVolume += Math.pow(10, dataArray[i] / 10)` over the band
(contentScripts/audio.ts:374–377). -/
def csTotalVolume (a : CSAnalyserState) (c : AudioContextState) : ℚ :=
  ∑ i ∈ Finset.Ico (csVoiceRangeStart a.frequencyBinCount c.sampleRate)
      (csVoiceRangeEnd a.frequencyBinCount c.sampleRate),
    a.powerData i

/-- `averageVolume = totalVolume / (voiceRangeEnd - voiceRangeStart)`
(contentScripts/audio.ts:379). -/
def csAverageVolume (a : CSAnalyserState) (c : AudioContextState) : ℚ :=
  csTotalVolume a c /
    ((csVoiceRangeEnd a.frequencyBinCount c.sampleRate
      - csVoiceRangeStart a.frequencyBinCount c.sampleRate : Nat) : ℚ)

/-- The content-script `detectVoiceActivity` (contentScripts/audio.ts:360–385):
`false` when the analyzer or the context is `null`, otherwise
`averageVolume > threshold` with `threshold = 0.1`. -/
def csDetectVoiceActivity (analyzer : Option CSAnalyserState)
    (ctx : Option AudioContextState) : Bool :=
  match analyzer, ctx with
  | some a, some c => decide ((1 / 10 : ℚ) < csAverageVolume a c)
  | _, _ => false

/-! ### Definitions modelled from the spec, for comparison with the source -/

/-- Modelled from the spec: the claim C6 / §4.3 retry table as a function of the
error code (`no-speech` → immediate restart, `aborted` → nothing,
`not-allowed`/`audio-capture` → no restart, `network` → one restart after
3000 ms, anything else → one restart after 1000 ms). -/
def specRetryPolicy (code : List Char) : RetryAction :=
  if code = "no-speech".data then RetryAction.immediate
  else if code = "aborted".data then RetryAction.noRestart
  else if code = "not-allowed".data ∨ code = "audio-capture".data then RetryAction.noRestart
  else if code = "network".data then RetryAction.delayed 3000
  else RetryAction.delayed 1000

/-- Modelled from the spec: claim C8's band-edge formula
`binIndex = floor(freq * fftSize / sampleRate)` with `fftSize = 2048` and
`sampleRate = 24000`. -/
def specBinIndex (freq : Nat) : Nat := ⌊((freq : ℚ) * 2048) / 24000⌋₊

/-- The trace of claim C5's round trip on the module system: VAD detects voice
and a one-shot session starts; the engine start callback fires; a final
transcript confirms the wake phrase; a later final transcript confirms the
sleep phrase; the engine session (stopped by `disableContinuousMode`) ends. -/
def roundTripTrace : List Ev :=
  [Ev.voiceDetected, Ev.engineStarted,
   Ev.resultEvent [] "hey copilot turn on the lights".data,
   Ev.resultEvent [] "copilot stop".data,
   Ev.engineEnded]

/-! ## Helper lemmas -/

theorem hasPrefixL_iff (pat l : List Char) : hasPrefixL l pat = true ↔ ∃ u, l = pat ++ u := by
  induction pat generalizing l with
  | nil => simp [hasPrefixL]
  | cons b bs ih =>
    cases l with
    | nil => simp [hasPrefixL]
    | cons a as =>
      simp only [hasPrefixL, Bool.and_eq_true, beq_iff_eq, ih, List.cons_append,
        List.cons.injEq, exists_and_left]

theorem containsSub_iff (pat l : List Char) :
    containsSub l pat = true ↔ ∃ u v, l = u ++ pat ++ v := by
  induction l with
  | nil =>
    simp only [containsSub, List.isEmpty_iff]
    constructor
    · rintro rfl; exact ⟨[], [], rfl⟩
    · rintro ⟨u, v, h⟩
      rcases List.append_eq_nil.mp h.symm with ⟨h1, rfl⟩
      rcases List.append_eq_nil.mp h1 with ⟨rfl, rfl⟩
      rfl
  | cons a as ih =>
    simp only [containsSub, Bool.or_eq_true, hasPrefixL_iff, ih]
    constructor
    · rintro (⟨u, hu⟩ | ⟨u, v, rfl⟩)
      · exact ⟨[], u, by simpa using hu⟩
      · exact ⟨a :: u, v, rfl⟩
    · rintro ⟨u, v, h⟩
      cases u with
      | nil => exact Or.inl ⟨v, by simpa using h⟩
      | cons x xs =>
        have h2 : a = x ∧ as = xs ++ pat ++ v := by simpa using h
        exact Or.inr ⟨xs, v, h2.2⟩

theorem detectWakeWord_ne_nil {t : List Char} (h : detectWakeWord t = true) :
    t.isEmpty = false := by
  cases t with
  | nil => exact absurd h (by decide)
  | cons a as => rfl

theorem countAwake_append (a b : List Effect) :
    countAwake (a ++ b) = countAwake a + countAwake b :=
  List.count_append _ _ _

theorem countAwake_handleSleep (s : RecState) : countAwake (handleSleep s).2 = 0 := by
  rcases s with ⟨l, cd, cont, vad, eng⟩
  cases l <;> cases cont <;> rfl

/-! ## Claim C1 -/

/-- C1 (counterexample): the mutual-exclusion invariant "VAD is active iff the
session is Idle or Disabled" fails on a reachable state of the module system:
after VAD detects voice and the resulting one-shot engine session starts, the
session is listening while the VAD loop is still active, because the `onstart`
handler stops VAD only when `recognition.continuous` is set. -/
theorem claim_C1_counterexample :
    (runModule initState [Ev.voiceDetected, Ev.engineStarted]).isListening = true
    ∧ (runModule initState [Ev.voiceDetected, Ev.engineStarted]).continuous = false
    ∧ (runModule initState [Ev.voiceDetected, Ev.engineStarted]).vadActive = true
    ∧ ¬ ((runModule initState [Ev.voiceDetected, Ev.engineStarted]).vadActive = true
          ↔ (runModule initState [Ev.voiceDetected, Ev.engineStarted]).isListening = false) := by
  decide

/-- C1 (amended): what the handlers actually guarantee about the VAD flag — the
engine start callback stops VAD exactly when continuous mode is on, the engine
end callback restarts VAD exactly when continuous mode is off, and a
sound-start event stops VAD; during one-shot listening before a sound-start,
VAD simply keeps its previous (active) state, so the claimed equivalence does
not hold. -/
theorem claim_C1_amended (s : RecState) :
    (stepModule s Ev.engineStarted).vadActive
        = (if s.engineRunning && s.continuous then false else s.vadActive)
    ∧ (stepModule s Ev.engineEnded).vadActive
        = (if s.engineRunning && !s.continuous then true else s.vadActive)
    ∧ (stepModule s Ev.soundStarted).vadActive
        = (if s.engineRunning then false else s.vadActive) := by
  rcases s with ⟨l, cd, cont, vad, eng⟩
  cases l <;> cases cont <;> cases eng <;> exact ⟨rfl, rfl, rfl⟩

/-! ## Claim C3 -/

/-- C3 (code bug): with the engine initialized and a session listening, the
module `SpeechRecognizer.stopListening` resolves its promise synchronously
right after requesting `recognition.stop()`, not on the engine's end event;
the legacy content-script `stopListening` does wait for the end event.  The
claim (and §4.3 of the spec) requires the waiting behavior of every
implementation. -/
theorem claim_C3_code_behavior :
    stopListeningOutcome true true = StopOutcome.resolvedImmediately
    ∧ csStopListeningOutcome true true = StopOutcome.resolvedOnEngineEnd
    ∧ stopListeningOutcome true true ≠ StopOutcome.resolvedOnEngineEnd := by
  decide

/-! ## Claim C5 -/

/-- C5 (code bug): the continuous-mode round trip on the module system.  After
the wake phrase is confirmed the session is listening with continuous mode
promoted; confirming the sleep phrase disables continuous mode, but
`disableContinuousMode`'s `startListening()` call is a no-op because the
immediately-resolving `stopListening` left `isListening = true`; when the
stopped engine session then ends, the handler finds continuous off and
restarts VAD instead of the session.  The round trip therefore ends Idle with
only VAD running — not listening one-shot as the claim (and the function's own
doc comment) states. -/
theorem claim_C5_code_behavior :
    (runModule initState (roundTripTrace.take 3)).isListening = true
    ∧ (runModule initState (roundTripTrace.take 3)).continuous = true
    ∧ (runModule initState (roundTripTrace.take 4)).continuous = false
    ∧ (runModule initState (roundTripTrace.take 4)).isListening = true
    ∧ (runModule initState roundTripTrace).isListening = false
    ∧ (runModule initState roundTripTrace).continuous = false
    ∧ (runModule initState roundTripTrace).vadActive = true
    ∧ (runModule initState roundTripTrace).engineRunning = false := by
  decide

/-! ## Claim C6 -/

/-- C6 (counterexample): the retry policy as claimed fails when the engine is
not in continuous mode — the whole error switch is guarded by
`if (this.recognition?.continuous)`, so a `no-speech` error during a plain
one-shot session triggers no restart attempt at all (the handler only restarts
VAD). -/
theorem claim_C6_counterexample :
    (onerrorStep ⟨true, false, false, true, true⟩ ("no-speech".data)).2 = RetryAction.noRestart
    ∧ (onerrorStep ⟨true, false, false, true, true⟩ ("no-speech".data)).1.1.isListening = false
    ∧ RetryAction.noRestart ≠ RetryAction.immediate := by
  decide

/-- C6 (amended): restricted to continuous mode, the module error handler is a
deterministic function of the error code and matches the claimed table exactly:
`no-speech` restarts immediately (exactly one attempt, and the state is
listening again), `aborted` does nothing, `not-allowed`/`audio-capture` never
restart and force the continuous flag off (restarting VAD), `network` schedules
exactly one restart after 3000 ms, and any unrecognized code schedules exactly
one restart after 1000 ms.  Outside continuous mode no restart is ever
attempted. -/
theorem claim_C6_amended (s : RecState) (code : List Char) (hc : s.continuous = true) :
    (onerrorStep s code).2 = specRetryPolicy code
    ∧ (onerrorStep s ("not-allowed".data)).1.1.continuous = false
    ∧ (onerrorStep s ("not-allowed".data)).1.1.vadActive = true
    ∧ (onerrorStep s ("no-speech".data)).1.1.isListening = true := by
  refine ⟨?_, ?_, ?_, ?_⟩
  · unfold onerrorStep specRetryPolicy
    simp only [hc, if_true]
    split_ifs <;> rfl
  · unfold onerrorStep
    simp only [hc, if_true]
    rw [if_neg (by decide), if_neg (by decide), if_pos (by decide)]
  · unfold onerrorStep
    simp only [hc, if_true]
    rw [if_neg (by decide), if_neg (by decide), if_pos (by decide)]
  · unfold onerrorStep
    simp only [hc, if_true]
    rfl

/-- C6 (witness): the amended theorem applied to a concrete continuous-mode
state and the `network` error code. -/
theorem claim_C6_witness :
    (onerrorStep (⟨true, true, true, false, true⟩ : RecState) ("network".data)).2
      = specRetryPolicy ("network".data) :=
  (claim_C6_amended ⟨true, true, true, false, true⟩ ("network".data) rfl).1

/-! ## Claim C2 -/

/-- C2: latch idempotence.  For any listening state with the commandDetected
latch clear, a transcript stream whose interim result contains a wake phrase
and whose subsequent final result contains a wake phrase makes the module
`onresult` handler dispatch `speech:awake` exactly once: the interim occurrence
fires the signal and sets the latch, and the final occurrence is suppressed by
the latch. -/
theorem claim_C2 (s : RecState) (i f : List Char)
    (hlatch : s.isCommandDetected = false)
    (hi : detectWakeWord i = true) (hf : detectWakeWord f = true) :
    countAwake (onresultStep s i []).2
      + countAwake (onresultStep (onresultStep s i []).1 [] f).2 = 1 := by
  have hine := detectWakeWord_ne_nil hi
  have hfne := detectWakeWord_ne_nil hf
  have h1 : onresultStep s i []
      = ({ s with isCommandDetected := true, continuous := true },
         [Effect.emit (Signal.result i false), Effect.pauseAllPlayback,
          Effect.emit Signal.awake]) := by
    unfold onresultStep
    simp [hine, hi, hlatch, handleWakeup]
  rw [h1]
  have h2 : countAwake (onresultStep
      ({ s with isCommandDetected := true, continuous := true } : RecState) [] f).2 = 0 := by
    unfold onresultStep processFinal
    simp only [List.isEmpty_nil, hfne, Bool.false_eq_true, if_false, hf, Bool.not_true,
      Bool.and_false, if_true]
    by_cases hs : detectSleepCommand f
    · simp [hs, countAwake]
      exact countAwake_handleSleep _
    · simp [hs, countAwake]
  rw [h2]
  rfl

/-- C2 (witness): the theorem at a concrete listening state with the latch
clear, interim transcript "hey copilot" and final transcript
"hey copilot turn on the lights". -/
theorem claim_C2_witness :
    countAwake (onresultStep (⟨true, false, false, true, true⟩ : RecState)
        ("hey copilot".data) []).2
      + countAwake (onresultStep
          (onresultStep (⟨true, false, false, true, true⟩ : RecState)
            ("hey copilot".data) []).1
          [] ("hey copilot turn on the lights".data)).2 = 1 :=
  claim_C2 _ _ _ rfl (by decide) (by decide)

/-! ## Claim C4 -/

/-- C4 (code bug): a final transcript containing a wake phrase arriving while
the latch is clear and the session listens one-shot.  The legacy
content-script handler (first two conjuncts) pauses playback once and emits
`USER_COMMAND_STARTED` once but leaves the state completely unchanged: the
continuous flag is NOT set to true (the source guards the assignment with
`if (recognition?.continuous)` although its own comment says "Enable
continuous mode if its not already enabled") and the latch is NOT set.  The
module `SpeechRecognizer` handler (last two conjuncts) implements the claimed
postcondition: one pause, continuous promoted, one `speech:awake`, latch
set. -/
theorem claim_C4_code_behavior :
    (csOnresultStep ⟨true, false, false, false⟩ []
        ("hey copilot turn on the lights".data)).1
      = ⟨true, false, false, false⟩
    ∧ (csOnresultStep ⟨true, false, false, false⟩ []
        ("hey copilot turn on the lights".data)).2
      = [CSAction.pauseAllPlayback, CSAction.send CSMsg.userCommandStarted]
    ∧ (onresultStep ⟨true, false, false, true, true⟩ []
        ("hey copilot turn on the lights".data)).1
      = ⟨true, true, true, true, true⟩
    ∧ (onresultStep ⟨true, false, false, true, true⟩ []
        ("hey copilot turn on the lights".data)).2
      = [Effect.emit (Signal.result ("hey copilot turn on the lights".data) true),
         Effect.pauseAllPlayback, Effect.emit Signal.awake] := by
  refine ⟨by decide, by decide, by decide, by decide⟩

/-! ## Claim C7 -/

/-- C7: VAD threshold strictness.  With an initialized analyzer and context,
the module detector reports voice exactly when the average band energy
strictly exceeds 60 (byte scale), and the content-script detector exactly when
it strictly exceeds 0.1 (power scale); an average exactly equal to the
threshold is classified as not detected in both. -/
theorem claim_C7 (a : AnalyserState) (c : AudioContextState)
    (p : CSAnalyserState) (c2 : AudioContextState) :
    (detectVoiceActivity ⟨some a, some c⟩ = true ↔ 60 < moduleAverageVolume a c)
    ∧ (moduleAverageVolume a c = 60 → detectVoiceActivity ⟨some a, some c⟩ = false)
    ∧ (csDetectVoiceActivity (some p) (some c2) = true ↔ 1 / 10 < csAverageVolume p c2)
    ∧ (csAverageVolume p c2 = 1 / 10 → csDetectVoiceActivity (some p) (some c2) = false) := by
  refine ⟨?_, ?_, ?_, ?_⟩
  · simp [detectVoiceActivity]
  · intro h
    simp [detectVoiceActivity, h]
  · simp [csDetectVoiceActivity]
  · intro h
    simp [csDetectVoiceActivity, h]

/-- C7 (witness): a 12-bin analyzer at 24 kHz whose band is bins 0–6, all at
byte energy 60: the average equals the threshold exactly and the detector
reports no voice. -/
theorem claim_C7_witness :
    detectVoiceActivity ⟨some ⟨12, fun _ => 60⟩, some ⟨24000⟩⟩ = false := by
  have h1 : moduleVoiceRangeStart 12 24000 = 0 := by
    unfold moduleVoiceRangeStart nyquistFreq
    rw [Nat.floor_eq_iff (by norm_num)]
    norm_num
  have h2 : moduleVoiceRangeEnd 12 24000 = 7 := by
    unfold moduleVoiceRangeEnd nyquistFreq
    rw [Nat.floor_eq_iff (by norm_num)]
    norm_num
  have h : moduleAverageVolume ⟨12, fun _ => 60⟩ ⟨24000⟩ = 60 := by
    unfold moduleAverageVolume moduleTotalVolume
    simp only [h1, h2]
    simp [Finset.sum_const, Nat.card_Ico]
  exact (claim_C7 ⟨12, fun _ => 60⟩ ⟨24000⟩ ⟨0, fun _ => 0⟩ ⟨24000⟩).2.1 h

/-! ## Claim C8 -/

/-- C8 (code bug): the band-edge bin indices.  The module
`AudioManager.detectVoiceActivity` computes `floor(freq * bufferLength / nyquist)`
which at `bufferLength = 1024`, `sampleRate = 24000` equals the claimed
`floor(freq * fftSize / sampleRate)` (17 and 597 for 200 Hz and 7000 Hz).  The
content-script version instead computes
`floor(freq * bufferLength / sampleRate / 2)`, yielding 4 and 149 — a quarter
of the claimed indices, contradicting the claim and the code's own comment
that the band is 200 Hz–7000 Hz. -/
theorem claim_C8_code_behavior :
    moduleVoiceRangeStart 1024 24000 = 17
    ∧ moduleVoiceRangeEnd 1024 24000 = 597
    ∧ specBinIndex 200 = 17
    ∧ specBinIndex 7000 = 597
    ∧ csVoiceRangeStart 1024 24000 = 4
    ∧ csVoiceRangeEnd 1024 24000 = 149
    ∧ csVoiceRangeStart 1024 24000 ≠ specBinIndex 200
    ∧ csVoiceRangeEnd 1024 24000 ≠ specBinIndex 7000 := by
  have h1 : moduleVoiceRangeStart 1024 24000 = 17 := by
    unfold moduleVoiceRangeStart nyquistFreq
    rw [Nat.floor_eq_iff (by norm_num)]
    norm_num
  have h2 : moduleVoiceRangeEnd 1024 24000 = 597 := by
    unfold moduleVoiceRangeEnd nyquistFreq
    rw [Nat.floor_eq_iff (by norm_num)]
    norm_num
  have h3 : specBinIndex 200 = 17 := by
    unfold specBinIndex
    rw [Nat.floor_eq_iff (by norm_num)]
    norm_num
  have h4 : specBinIndex 7000 = 597 := by
    unfold specBinIndex
    rw [Nat.floor_eq_iff (by norm_num)]
    norm_num
  have h5 : csVoiceRangeStart 1024 24000 = 4 := by
    unfold csVoiceRangeStart
    rw [Nat.floor_eq_iff (by norm_num)]
    norm_num
  have h6 : csVoiceRangeEnd 1024 24000 = 149 := by
    unfold csVoiceRangeEnd
    rw [Nat.floor_eq_iff (by norm_num)]
    norm_num
  refine ⟨h1, h2, h3, h4, h5, h6, ?_, ?_⟩
  · rw [h5, h3]; decide
  · rw [h6, h4]; decide

/-! ## Claim C9 -/

/-- C9 (counterexample): the claim's sleep-phrase set does not match the legacy
content script's inline sleep check: the transcript "copilot exit" contains
the claimed sleep phrase "copilot exit" as a substring of its lower-casing
(and the module classifier detects it), yet the content-script check — which
only looks for "stop copilot" and "copilot stop" — returns false. -/
theorem claim_C9_counterexample :
    detectSleepCommand ("copilot exit".data) = true
    ∧ csSleepCheck ("copilot exit".data) = false
    ∧ lowerL ("copilot exit".data) = [] ++ "copilot exit".data ++ [] := by
  refine ⟨by decide, by decide, by decide⟩

/-- C9 (amended): extensional characterization of the classifiers.  The module
`detectWakeWord` returns true exactly when the lower-cased transcript contains
one of "hey copilot", "ok copilot", "copilot" as a substring, and the module
`detectSleepCommand` exactly when it contains one of "copilot stop",
"stop copilot", "copilot exit", "copilot sleep"; the legacy content-script
inline sleep check instead matches exactly the two phrases "stop copilot" and
"copilot stop".  All are pure functions of the transcript text. -/
theorem claim_C9_amended (t : List Char) :
    (detectWakeWord t = true ↔
      ((∃ u v, lowerL t = u ++ "hey copilot".data ++ v)
       ∨ (∃ u v, lowerL t = u ++ "ok copilot".data ++ v)
       ∨ (∃ u v, lowerL t = u ++ "copilot".data ++ v)))
    ∧ (detectSleepCommand t = true ↔
      ((∃ u v, lowerL t = u ++ "copilot stop".data ++ v)
       ∨ (∃ u v, lowerL t = u ++ "stop copilot".data ++ v)
       ∨ (∃ u v, lowerL t = u ++ "copilot exit".data ++ v)
       ∨ (∃ u v, lowerL t = u ++ "copilot sleep".data ++ v)))
    ∧ (csSleepCheck t = true ↔
      ((∃ u v, lowerL t = u ++ "stop copilot".data ++ v)
       ∨ (∃ u v, lowerL t = u ++ "copilot stop".data ++ v))) := by
  refine ⟨?_, ?_, ?_⟩ <;>
    simp [detectWakeWord, detectSleepCommand, csSleepCheck, wakeWords, sleepCommands,
      containsSub_iff]

/-! ## Claim C10 -/

/-- C10: totality of the voice-activity detectors on an uninitialized pipeline.
If the analyzer or the audio context is null, both the module
`AudioManager.detectVoiceActivity` and the content-script `detectVoiceActivity`
return false (the only partial operations — reading the analyzer — sit behind
the null guard, so a VAD tick before initialization neither throws nor reports
voice). -/
theorem claim_C10 (oa : Option AnalyserState) (oc : Option AudioContextState)
    (pa : Option CSAnalyserState) (pc : Option AudioContextState)
    (h1 : oa = none ∨ oc = none) (h2 : pa = none ∨ pc = none) :
    detectVoiceActivity ⟨oa, oc⟩ = false ∧ csDetectVoiceActivity pa pc = false := by
  constructor
  · rcases h1 with h | h
    · subst h; cases oc <;> rfl
    · subst h; cases oa <;> rfl
  · rcases h2 with h | h
    · subst h; cases pc <;> rfl
    · subst h; cases pa <;> rfl

/-- C10 (witness): both detectors on the fully uninitialized state. -/
theorem claim_C10_witness :
    detectVoiceActivity ⟨none, none⟩ = false ∧ csDetectVoiceActivity none none = false :=
  claim_C10 none none none none (Or.inl rfl) (Or.inl rfl)
